import Mathlib

/-!
Shallow embedding of the session-authenticated product-catalog service
(`index.py`, `models/db_model.py`, `routes/product_routes.py`).

The SQLite store is modelled as an explicit state (`DB`) holding the `users`
and `products` tables as lists in insertion order; SQLAlchemy queries become
list operations (`find?`, `drop`/`take` for OFFSET/LIMIT, `filter` for a
DELETE by primary key).  Route handlers are pure functions from the session
and the store to a response (and the updated store); Python exceptions that
the routes catch (`ZeroDivisionError` via `except Exception`, `ValueError`
and `TypeError` from `float`) are made explicit with `Option` and
`PyFloatResult`.
-/

namespace CatalogApi

/-- A row of the `users` table (`db_model.py`, class `User`). -/
structure User where
  id : Nat
  username : String
  password : String
deriving DecidableEq, Repr

/-- A Python float as the `price` column stores it: a rational for the
finite values, with the infinities and NaN distinguished (`float` produces
all of these from a string). -/
inductive PyNum where
  | finite (val : Rat)
  | inf (negative : Bool)
  | nan
deriving DecidableEq, Repr

/-- A row of the `products` table (`db_model.py`, class `Product`).
`description` is a nullable column; `price` is a Float column holding
whatever `float` produced. -/
structure Product where
  id : Nat
  name : String
  description : Option String
  price : PyNum
deriving DecidableEq, Repr

/-- The persistent store: both tables, rows in insertion order. -/
structure DB where
  users : List User
  products : List Product
deriving DecidableEq, Repr

/-- `check_user` (`db_model.py` 94-100): first user matching both
`username` and `password` exactly, returning its id, else `None`. -/
def check_user (db : DB) (username password : String) : Option Nat :=
  (db.users.find? (fun u => u.username == username && u.password == password)).map User.id

/-- `get_products` (`db_model.py` 105-124): OFFSET `(page-1)*per_page`,
LIMIT `per_page`, plus the total row count.  SQLite treats a negative
OFFSET as 0 and a negative LIMIT as no limit. -/
def get_products (db : DB) (page per_page : Int) : List Product × Nat :=
  let offset := (page - 1) * per_page
  let window := db.products.drop offset.toNat
  let window := if per_page < 0 then window else window.take per_page.toNat
  (window, db.products.length)

/-- `get_product_by_id` (`db_model.py` 127-139): first row with the given
primary key, else `None`. -/
def get_product_by_id (db : DB) (product_id : Nat) : Option Product :=
  db.products.find? (fun p => p.id == product_id)

/-- Largest product id in the table (0 when empty): SQLite assigns
`max(id) + 1` to a new row of an INTEGER PRIMARY KEY table. -/
def maxId (l : List Product) : Nat :=
  l.foldr (fun p m => max p.id m) 0

/-- `add_product` (`db_model.py` 142-149): insert a row, return the
generated id together with the updated store. -/
def add_product (db : DB) (name : String) (description : String) (price : PyNum) :
    Nat × DB :=
  let newId := maxId db.products + 1
  (newId,
    { db with
      products := db.products ++
        [{ id := newId, name := name, description := some description, price := price }] })

/-- `delete_product` (`db_model.py` 152-161): look the row up by primary
key; if found, delete it (a DELETE by primary key) and return 1, else 0. -/
def delete_product (db : DB) (product_id : Nat) : Nat × DB :=
  match db.products.find? (fun p => p.id == product_id) with
  | some _ => (1, { db with products := db.products.filter (fun p => p.id != product_id) })
  | none => (0, db)

/-- A value the JSON `price` field can carry in the POST body.  An array
or object price always makes `float` raise `TypeError` and no route ever
inspects its elements, so both are modelled without their payload. -/
inductive JsonVal where
  | num (value : Rat)
  | str (value : String)
  | bool (value : Bool)
  | null
  | arr
  | obj
deriving DecidableEq, Repr

/-- Outcome of Python's `float(x)`: a value, a `ValueError` (string of the
wrong shape) or a `TypeError` (argument of a type `float` rejects). -/
inductive PyFloatResult where
  | ok (value : PyNum)
  | valueError
  | typeError
deriving DecidableEq, Repr

/-- Value of a digit string read left to right. -/
def digitsToNat (ds : List Char) : Nat :=
  ds.foldl (fun acc c => acc * 10 + (c.toNat - 48)) 0

/-- Strip the whitespace `float` ignores around a string (ASCII forms). -/
def pyStrip (cs : List Char) : List Char :=
  let ws : Char → Bool := fun c =>
    c == ' ' || c == '\t' || c == '\n' || c == '\r' || c == '\x0b' || c == '\x0c'
  ((cs.dropWhile ws).reverse.dropWhile ws).reverse

/-- A run of decimal digits with PEP-515 underscores: nonempty, starting
and ending with a digit, every underscore between two digits. -/
def digitsGroup : List Char → Bool
  | [] => false
  | [c] => c.isDigit
  | c :: '_' :: rest => c.isDigit && digitsGroup rest
  | c :: rest => c.isDigit && digitsGroup rest

/-- A character a digit run may contain. -/
def isGroupChar (c : Char) : Bool := c.isDigit || c == '_'

def stripUnderscores (cs : List Char) : List Char :=
  cs.filter (fun c => c != '_')

/-- Value of a sign-less decimal literal from its pieces: integer digits
`ip`, fractional digits `fp` and a signed exponent, negated when `neg`. -/
def decimalValue (ip fp : List Char) (eneg : Bool) (ed : Nat) (neg : Bool) : Rat :=
  let d := digitsToNat (stripUnderscores ip ++ stripUnderscores fp)
  let num : Int := if neg then -(d : Int) else (d : Int)
  let fracLen := (stripUnderscores fp).length
  if eneg then mkRat num (10 ^ fracLen * 10 ^ ed)
  else mkRat (num * ((10 ^ ed : Nat) : Int)) (10 ^ fracLen)

/-- Model of Python's `float` on a string: optional surrounding whitespace,
an optional sign, then either a case-insensitive `inf`/`infinity`/`nan`
keyword or a decimal literal `digits [. digits] [(e|E) [sign] digits]`
with at least one mantissa digit and PEP-515 underscores between digits.
Digits and whitespace are modelled in their ASCII forms.  Any other shape
raises `ValueError`, modelled as `none`. -/
def parsePyFloat (s : String) : Option PyNum :=
  let stripped := pyStrip s.toList
  let signed :=
    match stripped with
    | '-' :: rest => (true, rest)
    | '+' :: rest => (false, rest)
    | rest => (false, rest)
  let neg := signed.1
  let cs := signed.2
  let lower := cs.map Char.toLower
  if lower = "inf".toList || lower = "infinity".toList then some (.inf neg)
  else if lower = "nan".toList then some .nan
  else
    let ip := cs.takeWhile isGroupChar
    let rest1 := cs.dropWhile isGroupChar
    let fracSplit :=
      match rest1 with
      | '.' :: r => (r.takeWhile isGroupChar, r.dropWhile isGroupChar)
      | _ => (([] : List Char), rest1)
    let fp := fracSplit.1
    let rest2 := fracSplit.2
    let mantissaOk :=
      (ip.isEmpty || digitsGroup ip) && (fp.isEmpty || digitsGroup fp)
        && !(ip.isEmpty && fp.isEmpty)
    match rest2 with
    | [] => if mantissaOk then some (.finite (decimalValue ip fp false 0 neg)) else none
    | e :: r =>
      if e == 'e' || e == 'E' then
        let esigned :=
          match r with
          | '-' :: r2 => (true, r2)
          | '+' :: r2 => (false, r2)
          | r2 => (false, r2)
        if mantissaOk && digitsGroup esigned.2 then
          some (.finite (decimalValue ip fp esigned.1
            (digitsToNat (stripUnderscores esigned.2)) neg))
        else none
      else none

/-- `float(data['price'])` (`product_routes.py` 93): a JSON number is
already a float and a boolean is its int subclass (1.0 or 0.0); a string
must parse as a float literal, else `ValueError`; `None`, arrays and
objects make `float` raise `TypeError`. -/
def pyFloat : JsonVal → PyFloatResult
  | .num v => .ok (.finite v)
  | .bool b => .ok (.finite (if b then 1 else 0))
  | .str s =>
    match parsePyFloat s with
    | some v => .ok v
    | none => .valueError
  | .null => .typeError
  | .arr => .typeError
  | .obj => .typeError

/-- The JSON body of a POST `/api/products` request: each field present or
absent. -/
structure PostBody where
  name : Option String
  price : Option JsonVal
  description : Option String
deriving DecidableEq, Repr

/-- A response of one of the `/api` routes. -/
inductive ApiResult where
  | unauthorized (message : String)
  | listOk (products : List Product) (total_items : Nat)
      (total_pages : Int) (current_page per_page : Int)
  | productOk (product : Product)
  | created (id : Nat) (name : String)
  | deleted (message : String)
  | clientError (status : Nat) (message : String)
  | serverError (message : String)
deriving DecidableEq, Repr

/-- HTTP status code of a response. -/
def ApiResult.status : ApiResult → Nat
  | .unauthorized _ => 401
  | .listOk _ _ _ _ _ => 200
  | .productOk _ => 200
  | .created _ _ => 201
  | .deleted _ => 200
  | .clientError s _ => s
  | .serverError _ => 500

/-- The fixed 401 message of `require_auth` (`product_routes.py` 19). -/
def authErrorMessage : String := "Acceso no autorizado. Por favor, inicie sesión."

/-- 404 message of an out-of-range page (`product_routes.py` 44). -/
def emptyPageMessage : String := "No hay productos en esta página."

/-- 500 message of the list route's `except` branch (`product_routes.py` 61). -/
def listServerErrorMessage : String := "Error interno del servidor al listar productos."

/-- 400 message when `name` or `price` is missing (`product_routes.py` 87). -/
def missingFieldsMessage : String := "Faltan campos obligatorios (name y price)."

/-- 400 message when `price` does not parse (`product_routes.py` 105). -/
def invalidPriceMessage : String := "El precio debe ser un número válido."

/-- 500 message of the POST route's `except Exception` branch
(`product_routes.py` 108): the only handler a `TypeError` reaches. -/
def createServerErrorMessage : String := "Error interno del servidor al crear producto."

/-- Python `//` (floor division), `None` on a zero divisor
(`ZeroDivisionError`). -/
def pyFloorDiv (a b : Int) : Option Int :=
  if b = 0 then none else some (Int.fdiv a b)

/-- `list_products` (`product_routes.py` 30-61), after the auth check: the
404 branch fires when the window is empty and `page > 1`; then
`total_pages = (total + per_page - 1) // per_page`, where a division by
zero is caught by the `except` and yields the 500 response. -/
def list_products (db : DB) (page per_page : Int) : ApiResult :=
  let pr := get_products db page per_page
  if pr.1.isEmpty && decide (1 < page) then
    .clientError 404 emptyPageMessage
  else
    match pyFloorDiv ((pr.2 : Int) + per_page - 1) per_page with
    | some total_pages => .listOk pr.1 pr.2 total_pages page per_page
    | none => .serverError listServerErrorMessage

/-- `get_single_product` (`product_routes.py` 67-75), after the auth check. -/
def get_single_product (db : DB) (product_id : Nat) : ApiResult :=
  match get_product_by_id db product_id with
  | some p => .productOk p
  | none => .clientError 404 ("Producto con ID " ++ toString product_id ++ " no encontrado.")

/-- `add_new_product` (`product_routes.py` 81-108), after the auth check:
missing body or missing `name`/`price` gives the 400 missing-fields
response; a string `price` that does not parse raises `ValueError`, caught
as a distinct 400; a `price` of a type `float` rejects raises `TypeError`,
which only `except Exception` catches, so the answer is the 500 response;
`description` defaults to `""` when absent. -/
def add_new_product (db : DB) (data : Option PostBody) : ApiResult × DB :=
  match data with
  | none => (.clientError 400 missingFieldsMessage, db)
  | some d =>
    match d.name, d.price with
    | some name, some priceVal =>
      match pyFloat priceVal with
      | .ok price =>
        let r := add_product db name (d.description.getD "") price
        (.created r.1 name, r.2)
      | .valueError => (.clientError 400 invalidPriceMessage, db)
      | .typeError => (.serverError createServerErrorMessage, db)
    | _, _ => (.clientError 400 missingFieldsMessage, db)

/-- `delete_single_product` (`product_routes.py` 114-122), after the auth
check. -/
def delete_single_product (db : DB) (product_id : Nat) : ApiResult × DB :=
  let r := delete_product db product_id
  if r.1 > 0 then
    (.deleted ("Producto con ID " ++ toString product_id ++ " eliminado exitosamente."), r.2)
  else
    (.clientError 404 ("Producto con ID " ++ toString product_id ++ " no encontrado para eliminar."),
      r.2)

/-- A request to one of the four `/api` routes. -/
inductive Request where
  | listProducts (page per_page : Int)
  | getProduct (product_id : Nat)
  | postProduct (body : Option PostBody)
  | deleteProduct (product_id : Nat)
deriving DecidableEq, Repr

/-- The Flask session: `some user_id` when `user_id` is in the session. -/
abbrev Session := Option Nat

/-- `require_auth` (`product_routes.py` 11-22): without a `user_id` in the
session, answer 401 with the fixed message and never run the handler. -/
def require_auth (sess : Session) (handler : DB → ApiResult × DB) (db : DB) :
    ApiResult × DB :=
  match sess with
  | none => (.unauthorized authErrorMessage, db)
  | some _ => handler db

/-- Dispatch of the four `/api` routes, each wrapped in `require_auth`. -/
def handle_api (sess : Session) (db : DB) (req : Request) : ApiResult × DB :=
  match req with
  | .listProducts page per_page =>
      require_auth sess (fun db => (list_products db page per_page, db)) db
  | .getProduct pid => require_auth sess (fun db => (get_single_product db pid, db)) db
  | .postProduct body => require_auth sess (fun db => add_new_product db body) db
  | .deleteProduct pid => require_auth sess (fun db => delete_single_product db pid) db

/-- Outcome of the login route. -/
inductive LoginResult where
  | redirectDashboard
  | loginPage (message : Option String)
deriving DecidableEq, Repr

/-- The failure message of the login route (`index.py` 57). -/
def loginFailedMessage : String := "Credenciales incorrectas. Intente de nuevo."

/-- `login` POST branch (`index.py` 43-57): on a credential match, bind the
session to the user's id and redirect; otherwise re-render the login page
with the fixed failure message and leave the session as it was. -/
def login (db : DB) (sess : Session) (username password : String) :
    LoginResult × Session :=
  match check_user db username password with
  | some uid => (.redirectDashboard, some uid)
  | none => (.loginPage (some loginFailedMessage), sess)

/-- `logout` (`index.py` 63-67): `session.pop('user_id', None)` leaves the
session with no user, whatever it held. -/
def logout (_sess : Session) : Session := none

/-- Outcome of the dashboard route. -/
inductive DashboardResult where
  | render (user_id : Nat)
  | redirectLogin
deriving DecidableEq, Repr

/-- `dashboard` (`index.py` 72-80): renders only with a session. -/
def dashboard (sess : Session) : DashboardResult :=
  match sess with
  | some uid => .render uid
  | none => .redirectLogin

/-- The seed rows of `create_db_and_tables` (`db_model.py` 62-89):
user `admin`/`password123` and seven products. -/
def seedDB : DB :=
  { users := [{ id := 1, username := "admin", password := "password123" }],
    products :=
      [{ id := 1, name := "Laptop Ultraligera",
         description := some "13 pulgadas, 16GB RAM, SSD 512GB", price := .finite 1200 },
       { id := 2, name := "Monitor 4K",
         description := some "27 pulgadas, 60Hz, HDR", price := .finite ((901 : Rat) / 2) },
       { id := 3, name := "Teclado Mecánico",
         description := some "Switches Blue, Retroiluminación RGB",
         price := .finite ((8599 : Rat) / 100) },
       { id := 4, name := "Mouse Gaming",
         description := some "Inalámbrico, 16000 DPI", price := .finite 55 },
       { id := 5, name := "Webcam Full HD",
         description := some "1080p a 30fps", price := .finite ((4999 : Rat) / 100) },
       { id := 6, name := "Disco Duro Externo",
         description := some "2TB, USB 3.0", price := .finite 75 },
       { id := 7, name := "Auriculares Inalámbricos",
         description := some "Cancelación de ruido", price := .finite 150 }] }

/-- The store with the seed user and an empty catalog. -/
def emptyDB : DB :=
  { users := [{ id := 1, username := "admin", password := "password123" }],
    products := [] }

/-! ## Helper lemmas -/

theorem id_le_maxId (l : List Product) (p : Product) (hp : p ∈ l) : p.id ≤ maxId l := by
  induction l with
  | nil => cases hp
  | cons a l ih =>
    rcases List.mem_cons.1 hp with rfl | hp
    · exact le_max_left _ _
    · exact le_trans (ih hp) (le_max_right _ _)

/-- After an authenticated request, no handler answers 401: the only source
of a 401 is `require_auth`. -/
theorem authed_api_never_401 (uid : Nat) (db : DB) (req : Request) :
    (handle_api (some uid) db req).1.status ≠ 401 := by
  cases req with
  | listProducts page per_page =>
    simp only [handle_api, require_auth, list_products]
    split
    · simp [ApiResult.status]
    · split <;> simp [ApiResult.status]
  | getProduct pid =>
    simp only [handle_api, require_auth, get_single_product]
    split <;> simp [ApiResult.status]
  | postProduct body =>
    simp only [handle_api, require_auth, add_new_product]
    split
    · simp [ApiResult.status]
    · split
      · split <;> simp [ApiResult.status]
      · simp [ApiResult.status]
  | deleteProduct pid =>
    simp only [handle_api, require_auth, delete_single_product]
    split <;> simp [ApiResult.status]

/-! ## Claims -/

/-- C1: every `/api/*` request whose session holds no user is answered with
the one fixed 401 message, independent of the endpoint, and the store is
left untouched — no catalog business logic runs. -/
theorem api_unauthenticated_rejected (db : DB) (req : Request) :
    handle_api none db req = (.unauthorized authErrorMessage, db)
    ∧ (handle_api none db req).1.status = 401 := by
  cases req <;> exact ⟨rfl, rfl⟩

/-- C8: after `logout` the session holds no user, every `/api/*` route and
the dashboard reject it, and logout is idempotent (also on an absent
session). -/
theorem logout_invalidates_session (sess : Session) (db : DB) (req : Request) :
    logout sess = none
    ∧ handle_api (logout sess) db req = (.unauthorized authErrorMessage, db)
    ∧ dashboard (logout sess) = .redirectLogin
    ∧ logout (logout sess) = logout sess
    ∧ logout none = none := by
  cases req <;> exact ⟨rfl, rfl, rfl, rfl, rfl⟩

/-- C9: with `per_page = 0` and `page = 1` the list route reaches the
division by zero in `(total_products + per_page - 1) // per_page` (the
window is empty but `page > 1` fails, so the 404 branch is skipped); the
`except` turns it into the 500 response, never a success. -/
theorem per_page_zero_reaches_division_by_zero (db : DB) :
    pyFloorDiv ((db.products.length : Int) + 0 - 1) 0 = none
    ∧ list_products db 1 0 = .serverError listServerErrorMessage
    ∧ ∀ ps t tp cp pp, list_products db 1 0 ≠ ApiResult.listOk ps t tp cp pp := by
  refine ⟨by simp [pyFloorDiv], ?_, ?_⟩
  · simp [list_products, get_products, pyFloorDiv]
  · intro ps t tp cp pp
    simp [list_products, get_products, pyFloorDiv]

/-- C10: `delete_product` touches at most the product row whose primary key
is the given id: the users table is unchanged, the products table keeps
every other row exactly (in order), and when no row matches, the store is
exactly unchanged. -/
theorem delete_product_frame (db : DB) (product_id : Nat) :
    (delete_product db product_id).2.users = db.users
    ∧ (delete_product db product_id).2.products =
        db.products.filter (fun p => p.id != product_id)
    ∧ ((∀ p ∈ db.products, p.id ≠ product_id) → (delete_product db product_id).2 = db) := by
  rcases h : db.products.find? (fun p => p.id == product_id) with _ | p
  · rw [List.find?_eq_none] at h
    have hfilter : db.products.filter (fun p => p.id != product_id) = db.products :=
      List.filter_eq_self.2 (fun a ha => by simpa using h a ha)
    refine ⟨?_, ?_, fun _ => ?_⟩ <;>
      simp [delete_product, List.find?_eq_none.2 h, hfilter]
  · have hmem := List.mem_of_find?_eq_some h
    have hid : p.id = product_id := by simpa using List.find?_some h
    refine ⟨?_, ?_, fun hall => absurd hid (hall p hmem)⟩ <;>
      simp [delete_product, h]

theorem delete_single_product_snd (db : DB) (pid : Nat) :
    (delete_single_product db pid).2 = (delete_product db pid).2 := by
  simp only [delete_single_product]
  split <;> rfl

theorem fdiv_add_pred_eq_ceilDiv (n p : Nat) (hp : 1 ≤ p) :
    Int.fdiv ((n : Int) + (p : Int) - 1) (p : Int) = ((n ⌈/⌉ p : Nat) : Int) := by
  have h1 : ((n : Int) + (p : Int) - 1) = ((n + p - 1 : Nat) : Int) := by omega
  rw [h1, Int.fdiv_eq_ediv _ (by omega : (0 : Int) ≤ (p : Int)), ← Int.ofNat_ediv,
    Nat.ceilDiv_eq_add_pred_div]

/-- C2: for `page ≥ 1` and `per_page ≥ 1` the list query returns the window
skipping `(page-1)*per_page` rows of the catalog in insertion order and
taking at most `per_page` of them, total count equal to the full catalog
size independent of the window, and `total_pages = ⌈total/per_page⌉`. -/
theorem list_pagination_window (db : DB) (page per_page : Int)
    (hpage : 1 ≤ page) (hpp : 1 ≤ per_page) :
    get_products db page per_page =
      ((db.products.drop (((page - 1) * per_page).toNat)).take per_page.toNat,
        db.products.length)
    ∧ ∀ ps t tp cp pp, list_products db page per_page = ApiResult.listOk ps t tp cp pp →
        ps = (db.products.drop (((page - 1) * per_page).toNat)).take per_page.toNat
        ∧ ps.length ≤ per_page.toNat
        ∧ t = db.products.length
        ∧ tp = ((t ⌈/⌉ per_page.toNat : Nat) : Int) := by
  obtain ⟨p, rfl⟩ : ∃ p : Nat, per_page = (p : Int) := ⟨per_page.toNat, by omega⟩
  have hp1 : 1 ≤ p := by exact_mod_cast hpp
  have hget : get_products db page (p : Int) =
      ((db.products.drop (((page - 1) * (p : Int)).toNat)).take ((p : Int)).toNat,
        db.products.length) := by
    simp only [get_products]
    rw [if_neg (by omega)]
  refine ⟨hget, ?_⟩
  intro ps t tp cp pp h
  have hdz : ¬((p : Int) = 0) := by omega
  simp only [list_products, hget, pyFloorDiv, if_neg hdz] at h
  split at h
  · exact absurd h (by simp)
  · injection h with h1 h2 h3 h4 h5
    subst h1
    subst h2
    subst h3
    refine ⟨rfl, ?_, rfl, ?_⟩
    · rw [List.length_take]
      exact min_le_left _ _
    · rw [Int.toNat_natCast]
      exact fdiv_add_pred_eq_ceilDiv db.products.length p hp1

/-- Witness for C2: the seed catalog of 7 products, page 2 with 5 per page. -/
theorem list_pagination_window_witness :
    (1 : Int) ≤ 2 ∧ (1 : Int) ≤ 5
    ∧ (get_products seedDB 2 5 =
        ((seedDB.products.drop ((((2 : Int) - 1) * 5).toNat)).take ((5 : Int)).toNat,
          seedDB.products.length)
      ∧ ∀ ps t tp cp pp, list_products seedDB 2 5 = ApiResult.listOk ps t tp cp pp →
          ps = (seedDB.products.drop ((((2 : Int) - 1) * 5).toNat)).take ((5 : Int)).toNat
          ∧ ps.length ≤ ((5 : Int)).toNat
          ∧ t = seedDB.products.length
          ∧ tp = ((t ⌈/⌉ ((5 : Int)).toNat : Nat) : Int)) :=
  ⟨by decide, by decide, list_pagination_window seedDB 2 5 (by decide) (by decide)⟩

/-- C3: with `per_page ≥ 1`, a page beyond the data (empty window with
`page > 1`) answers 404, while an empty catalog on page 1 answers 200 with
an empty product list. -/
theorem list_out_of_range_vs_empty_catalog (db : DB) (page per_page : Int)
    (hpp : 1 ≤ per_page) :
    (1 < page → (get_products db page per_page).1 = [] →
      list_products db page per_page = ApiResult.clientError 404 emptyPageMessage)
    ∧ (db.products = [] →
      list_products db 1 per_page = ApiResult.listOk [] 0 0 1 per_page
      ∧ (list_products db 1 per_page).status = 200) := by
  obtain ⟨p, rfl⟩ : ∃ p : Nat, per_page = (p : Int) := ⟨per_page.toNat, by omega⟩
  have hp1 : 1 ≤ p := by exact_mod_cast hpp
  constructor
  · intro hpage hempty
    simp [list_products, hempty, hpage]
  · intro h
    have hget : get_products db 1 (p : Int) = ([], 0) := by
      simp [get_products, h]
    have hdz : ¬((p : Int) = 0) := by omega
    have hdiv : Int.fdiv ((p : Int) - 1) (p : Int) = 0 := by
      have h1 : ((p : Int) - 1) = ((p - 1 : Nat) : Int) := by omega
      rw [h1, Int.fdiv_eq_ediv _ (by omega : (0 : Int) ≤ (p : Int)), ← Int.ofNat_ediv,
        Nat.div_eq_of_lt (by omega)]
      rfl
    have e : list_products db 1 (p : Int) = ApiResult.listOk [] 0 0 1 (p : Int) := by
      simp [list_products, hget, pyFloorDiv, hdz, hdiv]
    exact ⟨e, by rw [e]; rfl⟩

/-- Witness for C3: the seeded empty catalog, page 3, 5 per page. -/
theorem list_out_of_range_vs_empty_catalog_witness :
    (1 : Int) ≤ 5
    ∧ ((1 < (3 : Int) → (get_products emptyDB 3 5).1 = [] →
        list_products emptyDB 3 5 = ApiResult.clientError 404 emptyPageMessage)
      ∧ (emptyDB.products = [] →
        list_products emptyDB 1 5 = ApiResult.listOk [] 0 0 1 5
        ∧ (list_products emptyDB 1 5).status = 200)) :=
  ⟨by decide, list_out_of_range_vs_empty_catalog emptyDB 3 5 (by decide)⟩

/-- Counterexample to C4 as stated: `name` and `price` both present and the
price (JSON `null`) does not parse as a number, yet the response is the 500
server error, not a 400 — `float(None)` raises `TypeError`, which
`except ValueError` does not catch. -/
theorem post_validation_errors_cex :
    add_new_product seedDB (some ⟨some "x", some JsonVal.null, none⟩) =
      (ApiResult.serverError createServerErrorMessage, seedDB)
    ∧ (add_new_product seedDB (some ⟨some "x", some JsonVal.null, none⟩)).1.status = 500 :=
  ⟨rfl, rfl⟩

/-- C4 (amended): a POST with no JSON body or with `name` or `price` absent
answers the 400 missing-fields message; `name` and `price` present but a
string `price` that does not parse as a float answers a distinct 400
message; a `price` of a JSON type `float` rejects outright (`null`, array,
object — never a string) raises `TypeError`, which only the generic
handler catches, so it answers the 500 server error, not a 400.  Every
case leaves the store untouched. -/
theorem post_validation_errors (db : DB) (body : Option PostBody) :
    (body = none → add_new_product db body = (.clientError 400 missingFieldsMessage, db))
    ∧ (∀ d, body = some d → d.name = none ∨ d.price = none →
        add_new_product db body = (.clientError 400 missingFieldsMessage, db))
    ∧ (∀ d nm v, body = some d → d.name = some nm → d.price = some v →
        pyFloat v = .valueError →
        add_new_product db body = (.clientError 400 invalidPriceMessage, db))
    ∧ (∀ d nm v, body = some d → d.name = some nm → d.price = some v →
        pyFloat v = .typeError →
        add_new_product db body = (.serverError createServerErrorMessage, db))
    ∧ pyFloat JsonVal.null = .typeError
    ∧ pyFloat JsonVal.arr = .typeError
    ∧ pyFloat JsonVal.obj = .typeError
    ∧ (∀ s, pyFloat (JsonVal.str s) ≠ .typeError)
    ∧ missingFieldsMessage ≠ invalidPriceMessage := by
  refine ⟨?_, ?_, ?_, ?_, rfl, rfl, rfl, ?_, by decide⟩
  · rintro rfl
    rfl
  · rintro ⟨dn, dp, dd⟩ rfl (hn | hp)
    · cases hn
      cases dp <;> rfl
    · cases hp
      cases dn <;> rfl
  · rintro ⟨dn, dp, dd⟩ nm v rfl hn hp hfloat
    cases hn
    cases hp
    simp [add_new_product, hfloat]
  · rintro ⟨dn, dp, dd⟩ nm v rfl hn hp hfloat
    cases hn
    cases hp
    simp [add_new_product, hfloat]
  · intro s
    simp only [pyFloat]
    split <;> simp

/-- C5: the delete route answers 200 exactly when a product with the id
exists; afterwards a lookup of that id finds nothing; on a missing id the
affected-row count is 0 and the route answers 404, not success. -/
theorem delete_then_getOne (db : DB) (product_id : Nat) :
    ((delete_single_product db product_id).1.status = 200 ↔
        ∃ p ∈ db.products, p.id = product_id)
    ∧ get_product_by_id (delete_single_product db product_id).2 product_id = none
    ∧ ((∀ p ∈ db.products, p.id ≠ product_id) →
        delete_product db product_id = (0, db)
        ∧ (delete_single_product db product_id).1 =
            ApiResult.clientError 404 ("Producto con ID " ++ toString product_id ++
              " no encontrado para eliminar.")) := by
  rcases h : db.products.find? (fun p => p.id == product_id) with _ | p
  · have hno : ∀ q ∈ db.products, ¬(q.id = product_id) := by
      intro q hq
      simpa using List.find?_eq_none.1 h q hq
    have hdel : delete_product db product_id = (0, db) := by
      simp [delete_product, h]
    refine ⟨⟨fun hst => ?_, fun hex => ?_⟩, ?_, fun _ => ⟨hdel, ?_⟩⟩
    · exfalso
      simp [delete_single_product, hdel, ApiResult.status] at hst
    · obtain ⟨q, hq, hid⟩ := hex
      exact absurd hid (hno q hq)
    · rw [delete_single_product_snd, hdel]
      exact h
    · simp [delete_single_product, hdel]
  · have hmem := List.mem_of_find?_eq_some h
    have hid : p.id = product_id := by simpa using List.find?_some h
    have hdel : delete_product db product_id =
        (1, { db with products := db.products.filter (fun q => q.id != product_id) }) := by
      simp [delete_product, h]
    refine ⟨⟨fun _ => ⟨p, hmem, hid⟩, fun _ => ?_⟩, ?_, fun hall => absurd hid (hall p hmem)⟩
    · simp [delete_single_product, hdel, ApiResult.status]
    · rw [delete_single_product_snd, hdel]
      simp only [get_product_by_id]
      rw [List.find?_eq_none]
      intro q hq
      simpa using (List.mem_filter.1 hq).2

/-- C6: a valid create yields a fresh id appended to the catalog, and a
lookup of that id returns exactly the submitted fields: the parsed price,
and `""` for an omitted description. -/
theorem create_then_getOne (db : DB) (name : String) (priceVal : JsonVal)
    (descr : Option String) (price : PyNum)
    (hprice : pyFloat priceVal = .ok price) :
    ∃ newId,
      (∀ p ∈ db.products, p.id ≠ newId)
      ∧ add_new_product db (some ⟨some name, some priceVal, descr⟩) =
          (ApiResult.created newId name,
            { db with products := db.products ++
                [{ id := newId, name := name,
                   description := some (descr.getD ""), price := price }] })
      ∧ get_product_by_id
          (add_new_product db (some ⟨some name, some priceVal, descr⟩)).2 newId =
          some { id := newId, name := name,
                 description := some (descr.getD ""), price := price } := by
  refine ⟨maxId db.products + 1, fun p hp => ?_, ?_, ?_⟩
  · have := id_le_maxId db.products p hp
    omega
  · simp [add_new_product, hprice, add_product]
  · have hnone : db.products.find? (fun p => p.id == maxId db.products + 1) = none := by
      rw [List.find?_eq_none]
      intro q hq
      have := id_le_maxId db.products q hq
      simp only [beq_iff_eq]
      omega
    simp [add_new_product, hprice, add_product, get_product_by_id, List.find?_append, hnone]

/-- Witness for C6: `create({name:"Pen", price:"1.5"})` on the seed store;
the price string parses to 3/2 and the description defaults to `""`. -/
theorem create_then_getOne_witness :
    pyFloat (JsonVal.str "1.5") = PyFloatResult.ok (PyNum.finite (mkRat 3 2))
    ∧ ∃ newId,
        (∀ p ∈ seedDB.products, p.id ≠ newId)
        ∧ add_new_product seedDB (some ⟨some "Pen", some (JsonVal.str "1.5"), none⟩) =
            (ApiResult.created newId "Pen",
              { seedDB with products := seedDB.products ++
                  [{ id := newId, name := "Pen",
                     description := some ((none : Option String).getD ""),
                     price := PyNum.finite (mkRat 3 2) }] })
        ∧ get_product_by_id
            (add_new_product seedDB (some ⟨some "Pen", some (JsonVal.str "1.5"), none⟩)).2 newId =
            some { id := newId, name := "Pen",
                   description := some ((none : Option String).getD ""),
                   price := PyNum.finite (mkRat 3 2) } :=
  ⟨rfl, create_then_getOne seedDB "Pen" (JsonVal.str "1.5") none (PyNum.finite (mkRat 3 2)) rfl⟩

/-- C7: a credential pair string-matching a stored user (the first match)
logs in, binding the session to that user's id, and every subsequent
`/api/*` request with that session passes the auth guard; a non-matching
pair fails with the one fixed message and the session is left as it was,
with no user issued. -/
theorem login_credential_semantics (db : DB) (sess : Session) (username password : String) :
    (∀ u, db.users.find? (fun x => x.username == username && x.password == password) = some u →
      check_user db username password = some u.id
      ∧ login db sess username password = (LoginResult.redirectDashboard, some u.id)
      ∧ ∀ req db', (handle_api (some u.id) db' req).1.status ≠ 401)
    ∧ ((∀ u ∈ db.users, ¬(u.username = username ∧ u.password = password)) →
      check_user db username password = none
      ∧ login db sess username password =
          (LoginResult.loginPage (some loginFailedMessage), sess)) := by
  constructor
  · intro u hu
    have hc : check_user db username password = some u.id := by
      simp [check_user, hu]
    exact ⟨hc, by simp [login, hc], fun req db' => authed_api_never_401 u.id db' req⟩
  · intro hno
    have hfind : db.users.find?
        (fun x => x.username == username && x.password == password) = none := by
      rw [List.find?_eq_none]
      intro x hx
      simpa using hno x hx
    have hc : check_user db username password = none := by
      simp [check_user, hfind]
    exact ⟨hc, by simp [login, hc]⟩

end CatalogApi
